import Mathlib

/-!
Verification of the tjsonapi encoder/decoder engine.

The Go sources are shallowly embedded: Go structs become Lean structures,
Go maps become association lists with assignment-style update, Go errors
become an explicit error enumeration, functions mutating through pointers
return the updated value alongside their result, and a Go runtime panic is
an explicit outcome constructor.  Machine floats (`float64`) are modelled
as rationals: the only operations the verified code performs on them are
comparison with zero, truncation to an integer, and pass-through.
-/

set_option maxRecDepth 4096

namespace TJsonApi

/-- The reflect kinds relevant to this code base (`reflect.Kind`). -/
inductive GoKind where
  | bool | int | int8 | int16 | int32 | int64
  | uint | uint8 | uint16 | uint32 | uint64 | uintptr
  | float32 | float64
  | string | interface | struct | map | slice | array | ptr
  | chan | func
  | invalid
  deriving DecidableEq, Repr

/-- The error values declared across the package (`errors.New` variables). -/
inductive GoErr where
  | encodingInvalidType      -- ErrEncodingInvalidType
  | encodingInvalidTag       -- ErrEncodingInvalidTag
  | decodingInvalidType      -- ErrDecodingInvalidType
  | decodingInvalidIDType    -- ErrDecodingInvalidIDType
  | decodingInvalidTag       -- ErrDecodingInvalidTag
  | cantSet                  -- ErrCantSet
  | resourcesBadType         -- ErrResourcesBadType
  | resourceLinkageBadType   -- ErrResourceLinkageBadType
  | attributeInvalidKey      -- ErrAttributeInvalidKey
  | attributeNotFound        -- ErrAttributeNotFound
  | metaNotFound             -- ErrMetaNotFound
  | invalidJSONValue         -- ErrInvalidJSONValue
  | contextNotFound          -- ErrContextNotFound
  | linkNotFound             -- ErrLinkNotFound
  deriving DecidableEq, Repr

/-- Dynamically-typed Go values (`interface{}`) as they occur as record
fields, attribute values and meta values in this development: signed
integers, strings, booleans, float64 (modelled as a rational), int slices
(the only slice element type exercised anywhere here is `int`), an
unsupported-kind exemplar (a channel value), and the nil interface. -/
inductive GoVal where
  | intv (n : Int)
  | strv (s : String)
  | boolv (b : Bool)
  | floatv (q : ℚ)
  | listv (xs : List Int)
  | chanv
  | nilv
  deriving DecidableEq, Repr

/-- `reflect.ValueOf(v).Kind()` on the modelled values.  The nil interface
gives the zero `reflect.Value`, whose kind is `Invalid`. -/
def goKind : GoVal → GoKind
  | .intv _ => .int
  | .strv _ => .string
  | .boolv _ => .bool
  | .floatv _ => .float64
  | .listv _ => .slice
  | .chanv => .chan
  | .nilv => .invalid

/-- The `validJSONKinds` table, reproduced verbatim (duplicates included). -/
def validJSONKinds : List GoKind :=
  [.bool, .int, .int8, .int16, .int32, .int64,
   .uint, .uint8, .uint16, .uint32, .uint64, .uintptr,
   .float32, .float64,
   .string, .interface, .struct, .interface, .struct,
   .map, .slice, .array, .ptr]

/-- `json.Marshaler` check.  None of the modelled value shapes implements a
custom `MarshalJSON`, so the capability check is constantly false. -/
def implementsJSONMarshaler : GoVal → Bool := fun _ => false

/-- `isValidJSONValue`: the nil interface is an invalid `reflect.Value`;
otherwise the kind must appear in `validJSONKinds`, with a fallback for
values implementing `json.Marshaler`. -/
def isValidJSONValue (v : GoVal) : Except GoErr Unit :=
  if goKind v = GoKind.invalid then
    .error .invalidJSONValue
  else if validJSONKinds.contains (goKind v) then
    .ok ()
  else if implementsJSONMarshaler v then
    .ok ()
  else
    .error .invalidJSONValue

/-- Association-list lookup, modelling Go map indexing `m[k]`. -/
def alistGet {α : Type} (l : List (String × α)) (k : String) : Option α :=
  (l.find? (fun p => p.1 = k)).map Prod.snd

/-- Association-list assignment, modelling Go map assignment `m[k] = v`. -/
def alistSet {α : Type} (l : List (String × α)) (k : String) (v : α) :
    List (String × α) :=
  if (l.find? (fun p => p.1 = k)).isSome then
    l.map (fun p => if p.1 = k then (k, v) else p)
  else
    l ++ [(k, v)]

/-- `Attributes`: `map[string]interface{}`. -/
def Attributes := List (String × GoVal)
  deriving DecidableEq, Repr

/-- `NewAttributes`. -/
def NewAttributes : Attributes := ([] : List (String × GoVal))

/-- `Attributes.AddAttribute`: validates the value, rejects the reserved
keys `"relationships"` and `"links"`, then assigns. -/
def Attributes.AddAttribute (a : Attributes) (key : String) (value : GoVal) :
    Except GoErr Attributes :=
  match isValidJSONValue value with
  | .error e => .error e
  | .ok _ =>
    if key = "relationships" ∨ key = "links" then
      .error .attributeInvalidKey
    else
      .ok (alistSet a key value)

/-- `Attributes.GetAttribute`. -/
def Attributes.GetAttribute (a : Attributes) (key : String) :
    Except GoErr GoVal :=
  match alistGet a key with
  | some v => .ok v
  | none => .error .attributeNotFound

/-- `Meta`: `map[string]interface{}`. -/
def Meta := List (String × GoVal)
  deriving DecidableEq, Repr

/-- `NewMeta`. -/
def NewMeta : Meta := ([] : List (String × GoVal))

/-- `Meta.AddMeta`: validates the value, then assigns. -/
def Meta.AddMeta (m : Meta) (key : String) (value : GoVal) :
    Except GoErr Meta :=
  match isValidJSONValue value with
  | .error e => .error e
  | .ok _ => .ok (alistSet m key value)

/-- `Link`: a rich link object with an href and a meta mapping. -/
structure Link where
  HRef : String
  LMeta : List (String × GoVal)
  deriving DecidableEq, Repr

/-- An entry of a `Links` map (`map[string]interface{}`): the two supported
shapes are a plain string and a `*Link` object. -/
inductive LinkEntry where
  | str (s : String)
  | obj (l : Link)
  deriving DecidableEq, Repr

/-- `Links`: `map[string]interface{}` holding strings or `*Link`. -/
def Links := List (String × LinkEntry)
  deriving DecidableEq, Repr

/-- `NewLinks`. -/
def NewLinks : Links := ([] : List (String × LinkEntry))

/-- `Links.AddLink`: `l[key] = link` for a string link. -/
def Links.AddLink (l : Links) (key : String) (link : String) : Links :=
  alistSet l key (.str link)

/-- `ResourceLinkageToOne`. -/
def ResourceLinkageToOne : Nat := 0

/-- `ResourceLinkageToMany`. -/
def ResourceLinkageToMany : Nat := 1

/-- `ResourceIdentifier`: id, type, meta.  The Go field `Type` is rendered
`RType` because `Type` is reserved in Lean. -/
structure ResourceIdentifier where
  ID : String
  RType : String
  RMeta : Meta
  deriving DecidableEq, Repr

/-- `NewResourceIdentifier`. -/
def NewResourceIdentifier : ResourceIdentifier :=
  { ID := "", RType := "", RMeta := NewMeta }

/-- `ResourceLinkage`: a cardinality marker (`Type uint8`) and a slice of
`*ResourceIdentifier` (a slot may hold a nil pointer, hence `Option`). -/
structure ResourceLinkage where
  LType : Nat
  LData : List (Option ResourceIdentifier)
  deriving DecidableEq, Repr

/-- `NewResourceLinkageToOne`: `make([]*ResourceIdentifier, 1)` allocates
one slot holding a nil pointer. -/
def NewResourceLinkageToOne : ResourceLinkage :=
  { LType := ResourceLinkageToOne, LData := [none] }

/-- `NewResourceLinkageToMany`: an empty slice. -/
def NewResourceLinkageToMany : ResourceLinkage :=
  { LType := ResourceLinkageToMany, LData := [] }

/-- `ResourceLinkage.AddResourceIdentifier`: appends on a to-many linkage,
otherwise fails and leaves the linkage unchanged.  Go mutates the receiver
and returns only an error; the model returns the post-state alongside. -/
def ResourceLinkage.AddResourceIdentifier (l : ResourceLinkage)
    (r : Option ResourceIdentifier) : ResourceLinkage × Except GoErr Unit :=
  if l.LType = ResourceLinkageToMany then
    ({ l with LData := l.LData ++ [r] }, .ok ())
  else
    (l, .error .resourceLinkageBadType)

/-- `ResourceLinkage.SetResourceIdentifier`: writes slot 0 of a to-one
linkage, otherwise fails and leaves the linkage unchanged. -/
def ResourceLinkage.SetResourceIdentifier (l : ResourceLinkage)
    (r : Option ResourceIdentifier) : ResourceLinkage × Except GoErr Unit :=
  if l.LType = ResourceLinkageToOne then
    ({ l with LData := l.LData.set 0 r }, .ok ())
  else
    (l, .error .resourceLinkageBadType)

/-- `ResourceLinkage.GetResourceIdentifier`: reads slot 0 of a to-one
linkage (the constructors guarantee the slot exists). -/
def ResourceLinkage.GetResourceIdentifier (l : ResourceLinkage) :
    Except GoErr (Option ResourceIdentifier) :=
  if l.LType = ResourceLinkageToOne then
    .ok (l.LData.getD 0 none)
  else
    .error .resourceLinkageBadType

/-- `Relationship`: links, an optional (`*ResourceLinkage`) data linkage,
and meta. -/
structure Relationship where
  Links : Links
  Data : Option ResourceLinkage
  RMeta : Meta
  deriving DecidableEq, Repr

/-- `NewRelationship`: fresh links and meta, nil data. -/
def NewRelationship : Relationship :=
  { Links := NewLinks, Data := none, RMeta := NewMeta }

/-- `Relationships`: `map[string]*Relationship`. -/
def Relationships := List (String × Relationship)
  deriving DecidableEq, Repr

/-- `NewRelationships`. -/
def NewRelationships : Relationships := ([] : List (String × Relationship))

/-- `ResourcesOne`. -/
def ResourcesOne : Nat := 0

/-- `ResourcesMany`. -/
def ResourcesMany : Nat := 1

/-- `Resource`: a typed, identified record with attributes, relationships,
links and meta. -/
structure Resource where
  ID : String
  RType : String
  Attributes : Attributes
  Relationships : Relationships
  Links : Links
  RMeta : Meta
  deriving DecidableEq, Repr

/-- `NewResource`. -/
def NewResource : Resource :=
  { ID := "", RType := "", Attributes := NewAttributes,
    Relationships := NewRelationships, Links := NewLinks, RMeta := NewMeta }

/-- `Resources`: a cardinality marker (`Type uint8`) and a slice of
`*Resource`. -/
structure Resources where
  RsType : Nat
  RsData : List (Option Resource)
  deriving DecidableEq, Repr

/-- `NewResourcesOne`: `make([]*Resource, 1)` allocates one nil slot. -/
def NewResourcesOne : Resources :=
  { RsType := ResourcesOne, RsData := [none] }

/-- `NewResourcesMany`: an empty slice. -/
def NewResourcesMany : Resources :=
  { RsType := ResourcesMany, RsData := [] }

/-- `Resources.SetResource`: writes slot 0 of a "one" container, otherwise
fails and leaves the container unchanged. -/
def Resources.SetResource (r : Resources) (resource : Option Resource) :
    Resources × Except GoErr Unit :=
  if r.RsType = ResourcesOne then
    ({ r with RsData := r.RsData.set 0 resource }, .ok ())
  else
    (r, .error .resourcesBadType)

/-- `Resources.AddResource`: appends on a "many" container, otherwise
fails and leaves the container unchanged. -/
def Resources.AddResource (r : Resources) (resource : Option Resource) :
    Resources × Except GoErr Unit :=
  if r.RsType = ResourcesMany then
    ({ r with RsData := r.RsData ++ [resource] }, .ok ())
  else
    (r, .error .resourcesBadType)

/-- `Resources.GetResource`: reads slot 0 of a "one" container. -/
def Resources.GetResource (r : Resources) :
    Except GoErr (Option Resource) :=
  if r.RsType = ResourcesOne then
    .ok (r.RsData.getD 0 none)
  else
    .error .resourcesBadType

/-- `Root`: the top-level document, with an optional (`*Resources`) data
member and meta. -/
structure Root where
  Data : Option Resources
  RMeta : Meta
  deriving DecidableEq, Repr

/-- `Context`: the caller-owned registry of relationship and link
templates. -/
structure Context where
  Relationships : Relationships
  CLinks : List (String × Link)
  deriving DecidableEq, Repr

/-- `NewContext`. -/
def NewContext : Context :=
  { Relationships := NewRelationships, CLinks := [] }

/-- `TagIdentifier`. -/
def TagIdentifier : String := "identifier"

/-- `TagAttribute`. -/
def TagAttribute : String := "attribute"

/-- `TagRelationship`. -/
def TagRelationship : String := "relationship"

/-- `TagLink`. -/
def TagLink : String := "link"

/-- `TagMeta`. -/
def TagMeta : String := "meta"

/-- `TagValue`. -/
def TagValue : String := "value"

/-- `TagRelationshipContext`. -/
def TagRelationshipContext : String := "context"

/-- `TagRelationshipLink`. -/
def TagRelationshipLink : String := "link"

/-- `TagRelationshipData`. -/
def TagRelationshipData : String := "data"

/-- Strips trailing `0` characters from a digit string. -/
def dropTrailingZeros (s : String) : String :=
  (((s.data.reverse).dropWhile (fun c => c = '0')).reverse).asString

/-- `strconv.FormatFloat(f, 'E', -1, 64)` on the rational model.  Every
float reaching this function in this development is integral, and for
integral values the shortest scientific form is computed exactly; the
non-integral branch truncates first (float64 shortest-digit rendering is
outside the rational model and is never exercised). -/
def goFormatFloatE (q : ℚ) : String :=
  let n : Int := if q < 0 then ⌈q⌉ else ⌊q⌋
  let sign := if n < 0 then "-" else ""
  let digits := toString n.natAbs
  if n = 0 then "0E+00"
  else
    let e := digits.length - 1
    let mantissaRest := dropTrailingZeros (digits.drop 1)
    let mantissa :=
      digits.take 1 ++ (if mantissaRest.isEmpty then "" else "." ++ mantissaRest)
    let estr := (if e < 10 then "0" else "") ++ toString e
    sign ++ mantissa ++ "E+" ++ estr

/-- `valueToString`: the encode-direction coercion of a typed value to its
string form.  Rows for unsigned integers and pointers are not reproduced:
no modelled value has those kinds.  An invalid `reflect.Value` (the nil
interface) errors before the kind switch, and every unlisted kind hits the
default arm, both yielding `ErrEncodingInvalidType`; in particular a slice
value has no case and fails. -/
def valueToString : GoVal → Except GoErr String
  | .intv n => .ok (toString n)          -- strconv.FormatInt(v.Int(), 10)
  | .strv s => .ok s
  | .boolv b => .ok (if b then "true" else "false")
  | .floatv q => .ok (goFormatFloatE q)
  | .listv _ => .error .encodingInvalidType
  | .chanv => .error .encodingInvalidType
  | .nilv => .error .encodingInvalidType

/-- `populateStruct` applied to a `Relationship` copy, as
`encodeRelationship`'s context arm does.  The source traversal visits the
copy's fields: `Links` (map kind, neither pointer nor struct, its
`jsonapi` tag is empty), `Data` (pointer kind, recursing into the
pointed-to `ResourceLinkage`, whose fields `Type` and `Data` are a uint8
and a slice, both untagged; the traversal does not descend into slice
elements or map values), and `Meta` (map kind, untagged).  No field of
`Relationship` or `ResourceLinkage` carries the `jsonapi:"value"` tag, so
no slot is ever written and the traversal leaves the copy and the shared
template storage bit-for-bit unchanged.  (The error value `populateStruct`
returns is discarded by its caller.)  The reference-level aliasing of this
arm is analysed separately in the `CtxHeap` namespace below. -/
def populateStruct (r : Relationship) (_i : GoVal) : Relationship := r

/-- The value record fed to the encoder: one entry per struct field, in
declaration order, carrying the comma-split `jsonapi` tag segments and the
field's value. -/
structure EncField where
  tags : List String
  val : GoVal
  deriving DecidableEq, Repr

/-- A native record presented to `Marshal`. -/
def EncRecord := List EncField
  deriving DecidableEq, Repr

/-- `encoder.encodeIdentifier`: coerces the field to the resource id and
takes the resource type from the tag. -/
def encodeIdentifier (res : Resource) (v : GoVal) (tags : List String) :
    Except GoErr Resource :=
  if tags.length < 2 then .error .encodingInvalidTag
  else
    match valueToString v with
    | .ok s => .ok { res with ID := s, RType := tags.getD 1 "" }
    | .error e => .error e

/-- `encoder.encodeAttribute`: stores the field value, as-is, under the
tag's name via `Attributes.AddAttribute`. -/
def encodeAttribute (res : Resource) (v : GoVal) (tags : List String) :
    Except GoErr Resource :=
  if tags.length < 2 then .error .encodingInvalidTag
  else
    match Attributes.AddAttribute res.Attributes (tags.getD 1 "") v with
    | .ok a => .ok { res with Attributes := a }
    | .error e => .error e

/-- `encoder.encodeRelationship`.  The 2-segment inline form assigns a
field of type `Relationship` (or `*Relationship`); the modelled field
value universe has no such constructor, so that arm always reaches its
type-mismatch branch. -/
def encodeRelationship (c : Context) (res : Resource) (v : GoVal)
    (tags : List String) : Except GoErr Resource :=
  if tags.length < 2 then .error .encodingInvalidTag
  else if tags.length = 2 then .error .encodingInvalidType
  else
    let sub := tags.getD 2 ""
    if sub = TagRelationshipContext then
      match alistGet c.Relationships (tags.getD 1 "") with
      | none => .error .contextNotFound
      | some tpl =>
        -- r := *rPtr (a shallow struct copy); populateStruct(reflect.ValueOf(r), v)
        let r := populateStruct tpl v
        .ok { res with
              Relationships := alistSet res.Relationships (tags.getD 1 "") r }
    else if sub = TagRelationshipLink then
      match v with
      | .strv s =>
        let r := { NewRelationship with
                   Links := Links.AddLink NewRelationship.Links "self" s }
        .ok { res with
              Relationships := alistSet res.Relationships (tags.getD 1 "") r }
      | _ => .error .encodingInvalidType   -- v.Kind() != reflect.String
    else if sub = TagRelationshipData then
      if tags.length < 4 then .error .encodingInvalidTag
      else
        match valueToString v with
        | .error _ => .error .encodingInvalidType
        | .ok idStr =>
          let rid := { NewResourceIdentifier with
                       ID := idStr, RType := tags.getD 3 "" }
          let linkage := (NewResourceLinkageToOne.SetResourceIdentifier
            (some rid)).1
          let r := { NewRelationship with Data := some linkage }
          .ok { res with
                Relationships := alistSet res.Relationships (tags.getD 1 "") r }
    else .ok res   -- no matching case in the sub-tag switch: no error

/-- `encoder.encodeMeta`: stores the field value under the tag's name in
the resource's meta.  This function exists in the source but is never
invoked — `marshalStruct`'s dispatch switch has no arm for the meta tag. -/
def encodeMeta (res : Resource) (v : GoVal) (tags : List String) :
    Except GoErr Resource :=
  if tags.length < 2 then .error .encodingInvalidTag
  else .ok { res with RMeta := alistSet res.RMeta (tags.getD 1 "") v }

/-- `encoder.marshalStruct`: walks the record's fields in declaration
order and dispatches on the first tag segment.  The switch in the source
has cases for `identifier`, `attribute` and `relationship` only; a field
whose category is `link`, `meta`, or anything else falls through with a
nil error and is skipped. -/
def marshalStruct (c : Context) : Resource → EncRecord → Except GoErr Resource
  | res, [] => .ok res
  | res, f :: fs =>
    let t0 := f.tags.getD 0 ""
    let step : Except GoErr Resource :=
      if t0 = TagIdentifier then encodeIdentifier res f.val f.tags
      else if t0 = TagAttribute then encodeAttribute res f.val f.tags
      else if t0 = TagRelationship then encodeRelationship c res f.val f.tags
      else .ok res
    match step with
    | .error e => .error e
    | .ok res' => marshalStruct c res' fs

/-- The shapes `Context.Marshal` distinguishes on its input interface:
a struct (one record), a slice or array (a homogeneous collection of
records), or anything else. -/
inductive MarshalInput where
  | structv (rec : EncRecord)
  | slicev (recs : List EncRecord)
  | otherv (v : GoVal)
  deriving DecidableEq, Repr

/-- The loop body of `Context.Marshal`'s slice arm: marshals each element
into a fresh resource and appends it to the "many" container. -/
def marshalSliceLoop (c : Context) :
    Resources → List EncRecord → Except GoErr Resources
  | acc, [] => .ok acc
  | acc, rec :: recs =>
    match marshalStruct c NewResource rec with
    | .error e => .error e
    | .ok res => marshalSliceLoop c (acc.AddResource (some res)).1 recs

/-- `Context.Marshal`: a struct encodes into a ONE container, a slice or
array into a MANY container (one resource per element, in order), and any
other input kind fails with `ErrEncodingInvalidType`.  `new(Root)` leaves
the root's meta at its zero value, modelled as the empty mapping. -/
def Context.Marshal (c : Context) (i : MarshalInput) : Except GoErr Root :=
  match i with
  | .structv rec =>
    match marshalStruct c NewResource rec with
    | .error e => .error e
    | .ok res =>
      .ok { Data := some (NewResourcesOne.SetResource (some res)).1,
            RMeta := NewMeta }
  | .slicev recs =>
    match marshalSliceLoop c NewResourcesMany recs with
    | .error e => .error e
    | .ok rs => .ok { Data := some rs, RMeta := NewMeta }
  | .otherv _ => .error .encodingInvalidType

/-- Package-level `Marshal`: marshals with a freshly allocated blank
context. -/
def Marshal (i : MarshalInput) : Except GoErr Root :=
  Context.Marshal NewContext i

/-- The outcome of running a Go function that can return normally, return
an error, or panic. -/
inductive GoResult (α : Type) where
  | ok (a : α)
  | err (e : GoErr)
  | panicked (msg : String)
  deriving DecidableEq, Repr

/-- Lifts an error-or-value result into an outcome. -/
def exceptToResult {α : Type} : Except GoErr α → GoResult α
  | .ok a => .ok a
  | .error e => .err e

/-- A typed target field slot the decoder can write: the field kinds the
modelled targets use (Go `int`, `string`, `bool`, `float64`, `[]int`). -/
inductive Slot where
  | intS (n : Int)
  | strS (s : String)
  | boolS (b : Bool)
  | floatS (q : ℚ)
  | intListS (xs : List Int)
  deriving DecidableEq, Repr

/-- Parses a non-empty all-digit suffix into a decimal numeral. -/
def parseDigitsAux : List Char → Nat → Option Nat
  | [], acc => some acc
  | c :: cs, acc =>
    if '0'.toNat ≤ c.toNat ∧ c.toNat ≤ '9'.toNat then
      parseDigitsAux cs (acc * 10 + (c.toNat - '0'.toNat))
    else none

/-- The successful cases of `strconv.ParseInt(str, 10, 64)`: an optional
sign followed by at least one digit, all digits.  (Go's clamping on range
errors is not exercised by any modelled input.) -/
def goParseIntOpt (str : String) : Option Int :=
  match str.data with
  | [] => none
  | '-' :: cs =>
    match cs with
    | [] => none
    | _ => (parseDigitsAux cs 0).map (fun n => -(n : Int))
  | '+' :: cs =>
    match cs with
    | [] => none
    | _ => (parseDigitsAux cs 0).map (fun n => (n : Int))
  | cs => (parseDigitsAux cs 0).map (fun n => (n : Int))

/-- `strconv.ParseInt(str, 10, 64)` with the error discarded: a syntax
error leaves the zero value 0, which `Option.getD 0` reproduces. -/
def goParseInt (str : String) : Int :=
  (goParseIntOpt str).getD 0

/-- `strconv.ParseBool` with the error discarded: the accepted true
literals yield true, and every other string (the false literals and the
error case alike) leaves the zero value false. -/
def goParseBool (str : String) : Bool :=
  ["1", "t", "T", "TRUE", "true", "True"].contains str

/-- `strconv.ParseFloat(str, 64)` with the error discarded, on the
rational model: integral numerals parse exactly, and every other string
leaves the zero value (no non-integral numeral occurs in this
development). -/
def goParseFloat (str : String) : ℚ :=
  match goParseIntOpt str with
  | some n => (n : ℚ)
  | none => 0

/-- `stringToValue`: the decode-direction coercion of a string into a
typed field, parse failures silently leaving the zero value.  The
`TextUnmarshaler` probes short-circuit only for values implementing that
capability — none of the modelled slot types does — and the unsigned and
pointer rows are not reproduced for the same reason.  A slice slot hits
the default arm and fails. -/
def stringToValue (str : String) : Slot → Except GoErr Slot
  | .intS _ => .ok (.intS (goParseInt str))
  | .strS _ => .ok (.strS str)
  | .boolS _ => .ok (.boolS (goParseBool str))
  | .floatS _ => .ok (.floatS (goParseFloat str))
  | .intListS _ => .error .decodingInvalidType

/-- `int64(f)` / `uint64(f)`: float-to-integer conversion truncates toward
zero. -/
def ratTrunc (q : ℚ) : Int :=
  if q < 0 then ⌈q⌉ else ⌊q⌋

/-- `strconv.FormatFloat(nbr, 'f', -1, 64)` on the rational model; only
integral values are rendered exactly (this row of the table is exercised
by no modelled input). -/
def goFormatFloatF (q : ℚ) : String :=
  if q.den = 1 then toString q.num
  else toString q.num ++ "/" ++ toString q.den

/-- `numberToValue`: writes a raw decoded number (a float64, modelled as a
rational) into a typed field.  Note the boolean row of the source:
`v.SetBool(nbr == 0.0)` — the field is set to the result of comparing the
number EQUAL to zero. -/
def numberToValue (nbr : ℚ) : Slot → Except GoErr Slot
  | .intS _ => .ok (.intS (ratTrunc nbr))
  | .floatS _ => .ok (.floatS nbr)
  | .boolS _ => .ok (.boolS (decide (nbr = 0)))
  | .strS _ => .ok (.strS (goFormatFloatF nbr))
  | .intListS _ => .error .decodingInvalidType

/-- `booleanToValue`: only a boolean field accepts a raw boolean. -/
def booleanToValue (val : Bool) : Slot → Except GoErr Slot
  | .boolS _ => .ok (.boolS val)
  | _ => .error .decodingInvalidType

/-- `invalidToValue`: a raw JSON null (invalid `reflect.Value`) zeroes the
field; the string arm delegates to `stringToValue ""`.  The pointer arm is
not reproduced (no pointer slots are modelled), and a slice slot hits the
default arm and fails. -/
def invalidToValue : Slot → Except GoErr Slot
  | .boolS _ => .ok (.boolS false)
  | .intS _ => .ok (.intS 0)
  | .floatS _ => .ok (.floatS 0)
  | .strS s => stringToValue "" (.strS s)
  | .intListS _ => .error .decodingInvalidType

/-- `setAttribute`: dispatches on the kind of the stored attribute value —
string, float64, bool and the invalid value (nil) are handled; every other
source kind (in particular a Go `int` stored by the encoder) falls through
to `ErrDecodingInvalidType`. -/
def setAttribute (dst : Slot) (src : GoVal) : Except GoErr Slot :=
  match src with
  | .strv s => stringToValue s dst
  | .floatv q => numberToValue q dst
  | .boolv b => booleanToValue b dst
  | .nilv => invalidToValue dst
  | _ => .error .decodingInvalidType

/-- A field of a decode target record: the comma-split tag segments and
the typed slot the decoder writes into. -/
structure TargetField where
  tags : List String
  slot : Slot
  deriving DecidableEq, Repr

/-- A native record given to `Unmarshal` as a decode target. -/
def TargetRecord := List TargetField
  deriving DecidableEq, Repr

/-- `decoder.decodeIdentifier`.  On a type mismatch, if the resource's
declared type ends in `"s"` the decoder truncates that type IN PLACE
(writing through the `*Resource` held by the root) and re-checks once;
the truncation happens whether or not the re-check succeeds.  The post
state of the resource is returned alongside the outcome.  (Indexing
`Type[len(Type)-1:]` on an empty declared type panics in Go.) -/
def decodeIdentifier (res : Resource) (tags : List String) (s : Slot) :
    Resource × GoResult Slot :=
  let expected := tags.getD 1 ""
  if expected = res.RType then
    (res, exceptToResult (stringToValue res.ID s))
  else if res.RType.isEmpty then
    (res, .panicked "runtime error: slice bounds out of range")
  else if res.RType.takeRight 1 = "s" then
    let res' := { res with RType := res.RType.dropRight 1 }
    if expected = res'.RType then
      (res', exceptToResult (stringToValue res'.ID s))
    else
      (res', .err .decodingInvalidIDType)
  else
    (res, exceptToResult (stringToValue res.ID s))

/-- `decoder.decodeAttribute`: a present attribute is coerced into the
field via `setAttribute`; an absent one leaves the field untouched with a
nil error. -/
def decodeAttribute (res : Resource) (tags : List String) (s : Slot) :
    GoResult Slot :=
  match Attributes.GetAttribute res.Attributes (tags.getD 1 "") with
  | .ok attr => exceptToResult (setAttribute s attr)
  | .error _ => .ok s

/-- `decoder.decodeResourceIdentifier`: the same permissive one-character
plural check as `decodeIdentifier`, mutating the identifier's `Type` in
place through the `*ResourceIdentifier` held by the root's linkage. -/
def decodeResourceIdentifier (r : ResourceIdentifier) (tags : List String)
    (s : Slot) : ResourceIdentifier × GoResult Slot :=
  let expected := tags.getD 3 ""
  if expected = r.RType then
    (r, exceptToResult (stringToValue r.ID s))
  else if r.RType.isEmpty then
    (r, .panicked "runtime error: slice bounds out of range")
  else if r.RType.takeRight 1 = "s" then
    let r' := { r with RType := r.RType.dropRight 1 }
    if expected = r'.RType then
      (r', exceptToResult (stringToValue r'.ID s))
    else
      (r', .err .decodingInvalidIDType)
  else
    (r, exceptToResult (stringToValue r.ID s))

/-- The loop of `decodeRelationship`'s to-many arm, specialised to the
`[]int` element type of the modelled targets (`reflect.New(vType)` makes a
fresh zero element, here `intS 0`): decodes one element per identifier in
linkage order, appending each, and stops at the first error.  Identifier
mutations performed by the plural check are written back into the linkage
slice. -/
def decodeToMany (tags : List String) :
    List (Option ResourceIdentifier) → List Int →
    List (Option ResourceIdentifier) × GoResult (List Int)
  | [], acc => ([], .ok acc)
  | none :: rest, _acc =>
    (none :: rest,
     .panicked "runtime error: invalid memory address or nil pointer dereference")
  | some rid :: rest, acc =>
    match decodeResourceIdentifier rid tags (.intS 0) with
    | (rid', .ok (.intS n)) =>
      let (rest', out) := decodeToMany tags rest (acc ++ [n])
      (some rid' :: rest', out)
    | (rid', .ok _) =>
      -- unreachable: stringToValue preserves the slot constructor
      (some rid' :: rest, .err .decodingInvalidType)
    | (rid', .err e) => (some rid' :: rest, .err e)
    | (rid', .panicked m) => (some rid' :: rest, .panicked m)

/-- `decoder.decodeRelationship`: only the `data` sub-tag is decoded.  A
missing relationship or a nil linkage is silently skipped; a to-one
linkage decodes its single identifier directly into the field; a to-many
linkage appends one decoded element per identifier into the slice field
(which must be a slice, or `v.Type().Elem()` panics); any other linkage
cardinality marker fails.  The post state of the resource (including
identifier-type mutations) is returned alongside. -/
def decodeRelationship (res : Resource) (tags : List String) (s : Slot) :
    Resource × GoResult Slot :=
  if tags.getD 2 "" = TagRelationshipData then
    if tags.length < 4 then (res, .err .decodingInvalidTag)
    else
      match alistGet res.Relationships (tags.getD 1 "") with
      | none => (res, .ok s)
      | some r =>
        match r.Data with
        | none => (res, .ok s)
        | some lk =>
          if lk.LType = ResourceLinkageToOne then
            match lk.LData.getD 0 none with
            | none =>
              (res,
               .panicked "runtime error: invalid memory address or nil pointer dereference")
            | some rid =>
              let (rid', out) := decodeResourceIdentifier rid tags s
              let r' := { r with
                          Data := some { lk with
                                         LData := lk.LData.set 0 (some rid') } }
              ({ res with
                 Relationships := alistSet res.Relationships (tags.getD 1 "") r' },
               out)
          else if lk.LType = ResourceLinkageToMany then
            match s with
            | .intListS xs =>
              let (data', out) := decodeToMany tags lk.LData xs
              let r' := { r with Data := some { lk with LData := data' } }
              ({ res with
                 Relationships := alistSet res.Relationships (tags.getD 1 "") r' },
               match out with
               | .ok xs' => .ok (.intListS xs')
               | .err e => .err e
               | .panicked m => .panicked m)
            | _ => (res, .panicked "reflect: Elem of invalid type")
          else (res, .err .decodingInvalidType)
  else (res, .ok s)   -- any other sub-tag: fall through with nil error

/-- `decoder.unmarshalResource`: walks the target's fields in declaration
order, dispatching on the first tag segment (`identifier`, `attribute`,
`relationship`; anything else is skipped), aborting at the first error and
threading the resource's in-place mutations. -/
def unmarshalFields : Resource → List TargetField →
    Resource × GoResult (List TargetField)
  | res, [] => (res, .ok [])
  | res, f :: fs =>
    let t0 := f.tags.getD 0 ""
    let step : Resource × GoResult Slot :=
      if t0 = TagIdentifier then decodeIdentifier res f.tags f.slot
      else if t0 = TagAttribute then (res, decodeAttribute res f.tags f.slot)
      else if t0 = TagRelationship then decodeRelationship res f.tags f.slot
      else (res, .ok f.slot)
    match step with
    | (res', .ok s') =>
      (match unmarshalFields res' fs with
       | (res'', .ok fs') => (res'', .ok ({ f with slot := s' } :: fs'))
       | (res'', .err e) => (res'', .err e)
       | (res'', .panicked m) => (res'', .panicked m))
    | (res', .err e) => (res', .err e)
    | (res', .panicked m) => (res', .panicked m)

/-- The shapes `Context.Unmarshal` distinguishes on its target interface:
a pointer to a record, a slice of records (note: obtained from the
interface argument by `reflect.ValueOf`, hence unaddressable), or anything
else. -/
inductive DecodeTarget where
  | ptr (rec : List TargetField)
  | slicet (recs : List (List TargetField))
  | othert
  deriving DecidableEq, Repr

/-- The message of the panic raised by `reflect.Value.SetLen` on a value
that is not assignable. -/
def setLenPanicMsg : String :=
  "reflect: reflect.Value.SetLen using unaddressable value"

/-- `Context.Unmarshal`.  ONE roots decode into a pointer target in place.
MANY roots take the slice arm, whose first statement `v.SetLen(0)` panics:
`v` came from `reflect.ValueOf` on the interface argument and is therefore
unaddressable, and `SetLen` requires an assignable value — so the MANY
path never reads a resource.  Every shape mismatch falls through to
`ErrDecodingInvalidType`.  The possibly mutated root is returned alongside
the outcome.  (A ONE root whose single slot holds a nil `*Resource` is
modelled as the nil-dereference panic its first tagged field causes; the
claims only decode non-nil resources.) -/
def Context.Unmarshal (_c : Context) (r : Root) (i : DecodeTarget) :
    Root × GoResult DecodeTarget :=
  match r.Data with
  | none =>
    (r, .panicked "runtime error: invalid memory address or nil pointer dereference")
  | some rs =>
    if rs.RsType = ResourcesOne then
      match i with
      | .ptr rec =>
        (match rs.RsData.getD 0 none with
         | none =>
           (r, .panicked "runtime error: invalid memory address or nil pointer dereference")
         | some res =>
           let (res', out) := unmarshalFields res rec
           let r' : Root :=
             { r with Data := some { rs with RsData := rs.RsData.set 0 (some res') } }
           match out with
           | .ok rec' => (r', .ok (.ptr rec'))
           | .err e => (r', .err e)
           | .panicked m => (r', .panicked m))
      | _ => (r, .err .decodingInvalidType)
    else if rs.RsType = ResourcesMany then
      match i with
      | .slicet _ => (r, .panicked setLenPanicMsg)
      | _ => (r, .err .decodingInvalidType)
    else (r, .err .decodingInvalidType)

/-- Package-level `Unmarshal`: decodes with a freshly allocated blank
context. -/
def Unmarshal (r : Root) (i : DecodeTarget) : Root × GoResult DecodeTarget :=
  Context.Unmarshal NewContext r i

/-! ## The generic JSON value tree and the custom MarshalJSON methods -/

/-- A generic JSON value, the output of the underlying serialization
primitive. -/
inductive Json where
  | null
  | boolj (b : Bool)
  | num (q : ℚ)
  | str (s : String)
  | arr (xs : List Json)
  | obj (fields : List (String × Json))

/-- `json.Marshal` on a dynamically-typed value: numbers, strings,
booleans and slices serialize structurally, the nil interface serializes
as `null`, and a channel value is an unsupported type (`none`).
(encoding/json emits map keys in sorted order; the modelled maps are
emitted in stored order, which coincides on every input considered —
they hold at most one entry.) -/
def govToJson : GoVal → Option Json
  | .intv n => some (.num (n : ℚ))
  | .strv s => some (.str s)
  | .boolv b => some (.boolj b)
  | .floatv q => some (.num q)
  | .listv xs => some (.arr (xs.map (fun n => Json.num (n : ℚ))))
  | .chanv => none
  | .nilv => some .null

/-- Serializes a `map[string]interface{}` (attributes or meta). -/
def gomapToJson (m : List (String × GoVal)) :
    Option (List (String × Json)) :=
  m.mapM (fun p => (govToJson p.2).map (fun j => (p.1, j)))

/-- Appends an object member only when the mapping is non-empty,
modelling the `omitempty` option on a map-typed field. -/
def omitemptyMap (name : String) (fields : Option (List (String × Json))) :
    (List (String × GoVal)) → List (String × Json) → Option (List (String × Json))
  | m, acc =>
    match fields with
    | none => none
    | some fs => some (acc ++ (if m.isEmpty then [] else [(name, .obj fs)]))

/-- Serializes a `ResourceIdentifier`: `id` and `type` always, `meta`
under `omitempty`. -/
def resourceIdentifierToJson (r : ResourceIdentifier) : Option Json :=
  match omitemptyMap "meta" (gomapToJson r.RMeta) r.RMeta
      [("id", .str r.ID), ("type", .str r.RType)] with
  | none => none
  | some fs => some (.obj fs)

/-- `ResourceLinkage.MarshalJSON`: a to-one linkage serializes as its
single element (a nil element as `null`), anything else serializes the
whole slice as an array. -/
def ResourceLinkage.MarshalJSON (l : ResourceLinkage) : Option Json :=
  if l.LType = ResourceLinkageToOne then
    match l.LData.getD 0 none with
    | none => some .null
    | some r => resourceIdentifierToJson r
  else
    (l.LData.mapM (fun o =>
      match o with
      | none => some Json.null
      | some r => resourceIdentifierToJson r)).map Json.arr

/-- Serializes a `Links` entry: a string directly, a `*Link` as an object
whose `href` and `meta` members are both unconditional (`Link` declares no
`omitempty`). -/
def linkEntryToJson : LinkEntry → Option Json
  | .str s => some (.str s)
  | .obj l =>
    match gomapToJson l.LMeta with
    | none => none
    | some m => some (.obj [("href", .str l.HRef), ("meta", .obj m)])

/-- Serializes a `Links` map. -/
def linksToJson (l : Links) : Option (List (String × Json)) :=
  List.mapM (fun p => (linkEntryToJson p.2).map (fun j => (p.1, j))) l

/-- Serializes a `Relationship`: `links`, `data` and `meta` all carry
`omitempty` (for `data`, a pointer field, empty means nil). -/
def relationshipToJson (r : Relationship) : Option Json :=
  match linksToJson r.Links with
  | none => none
  | some ls =>
    let acc := if List.isEmpty r.Links then [] else [("links", Json.obj ls)]
    let withData :=
      match r.Data with
      | none => some acc
      | some lk =>
        match lk.MarshalJSON with
        | none => none
        | some j => some (acc ++ [("data", j)])
    match withData with
    | none => none
    | some acc' =>
      match omitemptyMap "meta" (gomapToJson r.RMeta) r.RMeta acc' with
      | none => none
      | some fs => some (.obj fs)

/-- Serializes a `Relationships` map. -/
def relationshipsToJson (rs : Relationships) :
    Option (List (String × Json)) :=
  List.mapM (fun p => (relationshipToJson p.2).map (fun j => (p.1, j))) rs

/-- Serializes a `Resource`: `id` and `type` always, the four mappings
under `omitempty`, members in field declaration order. -/
def resourceToJson (r : Resource) : Option Json :=
  match gomapToJson r.Attributes with
  | none => none
  | some attrs =>
    match relationshipsToJson r.Relationships with
    | none => none
    | some rels =>
      match linksToJson r.Links with
      | none => none
      | some ls =>
        match gomapToJson r.RMeta with
        | none => none
        | some m =>
          some (.obj
            ([("id", .str r.ID), ("type", .str r.RType)]
             ++ (if List.isEmpty r.Attributes then []
                 else [("attributes", Json.obj attrs)])
             ++ (if List.isEmpty r.Relationships then []
                 else [("relationships", Json.obj rels)])
             ++ (if List.isEmpty r.Links then [] else [("links", Json.obj ls)])
             ++ (if List.isEmpty r.RMeta then [] else [("meta", Json.obj m)])))

/-- `Resources.MarshalJSON`: a "one" container serializes as its single
element (a nil element as `null`, matching `json.Marshal` on a nil
pointer); anything else serializes the whole slice as an array — in
particular an empty "many" container serializes as `[]`. -/
def Resources.MarshalJSON (r : Resources) : Option Json :=
  if r.RsType = ResourcesOne then
    match r.RsData.getD 0 none with
    | none => some .null
    | some res => resourceToJson res
  else
    (r.RsData.mapM (fun o =>
      match o with
      | none => some Json.null
      | some res => resourceToJson res)).map Json.arr

/-- Serializes a `Root`: `data` (a pointer field under `omitempty`,
omitted only when nil) and `meta` (a map under `omitempty`). -/
def rootToJson (r : Root) : Option Json :=
  let withData :=
    match r.Data with
    | none => some ([] : List (String × Json))
    | some rs =>
      match rs.MarshalJSON with
      | none => none
      | some j => some [("data", j)]
  match withData with
  | none => none
  | some acc =>
    match omitemptyMap "meta" (gomapToJson r.RMeta) r.RMeta acc with
    | none => none
    | some fs => some (.obj fs)

/-! ## The context-templating arm at the reference level

`encodeRelationship`'s context arm manipulates references: the stored
template is a `*Relationship`, `r := *rPtr` is a shallow struct copy, and
the copy's `Links` and `Meta` fields are Go map references while `Data` is
a `*ResourceLinkage` pointer — all shared with the template.  To reason
about that sharing, this namespace gives `Relationship` a representation
whose reference-typed fields are explicit heap addresses.  The linkage
heap is the only store the claims observe; the link and meta map cells are
carried as opaque addresses. -/

namespace CtxHeap

/-- `Relationship` with its reference-typed fields as heap addresses. -/
structure RelationshipH where
  LinksRef : Nat
  DataRef : Option Nat
  MetaRef : Nat
  deriving DecidableEq, Repr

/-- The store of `ResourceLinkage` cells addressed by `DataRef`. -/
def Heap := List ResourceLinkage
  deriving DecidableEq, Repr

/-- `populateStruct(reflect.ValueOf(r), v)` on a `Relationship` copy, at
the reference level.  The traversal skips the untagged map fields, and for
a non-nil `Data` recurses through the pointer into the heap cell — whose
fields `Type` and `Data` are a uint8 and a slice, both untagged, and the
traversal does not descend into slice elements — so in either case no
write to the heap occurs. -/
def populateStructH (h : Heap) (r : RelationshipH) (_i : GoVal) : Heap :=
  match r.DataRef with
  | none => h
  | some _ => h

/-- The context arm of `encoder.encodeRelationship`: fetch the template by
name, make a shallow struct copy (sharing every reference field), run the
populate traversal, and hand the copy back (the caller stores `&r` in the
resource).  Returns the copy and the post-call heap. -/
def encodeRelationshipContextH (c : List (String × RelationshipH)) (h : Heap)
    (name : String) (v : GoVal) : Except GoErr (RelationshipH × Heap) :=
  match alistGet c name with
  | none => .error .contextNotFound
  | some tpl =>
    let r := tpl
    let h' := populateStructH h r v
    .ok (r, h')

/-- A write through a relationship's data linkage pointer:
`rel.Data.SetResourceIdentifier(rid)` updates the heap cell the pointer
addresses. -/
def setThroughData (h : Heap) (r : RelationshipH)
    (rid : Option ResourceIdentifier) : Heap :=
  match r.DataRef with
  | none => h
  | some addr =>
    match h.get? addr with
    | none => h
    | some lk => h.set addr (lk.SetResourceIdentifier rid).1

/-- A read through a relationship's data linkage pointer: the single
identifier slot of the addressed cell. -/
def readThroughData (h : Heap) (r : RelationshipH) :
    Option (Option ResourceIdentifier) :=
  match r.DataRef with
  | none => none
  | some addr => (h.get? addr).map (fun lk => lk.LData.getD 0 none)

/-- The spec's notion of independent copies: the two copies do not alias a
common mutable linkage cell, so a write through one is never observable
through the other. -/
def IndependentCopies (c1 c2 : RelationshipH) : Prop :=
  ∀ a1 a2 : Nat, c1.DataRef = some a1 → c2.DataRef = some a2 → a1 ≠ a2

end CtxHeap

/-! ## Concrete fixtures

The scenario record of the repository's test harness (`basicTestStruct`),
the root its `TestMain` builds by hand (`basicExpectedRoot`), and the
small inputs used by the individual claims. -/

/-- The scenario struct: `{ID:42, First:84, Second:"a string",
OneRel:4242, ManyRels:[21,42]}` with its tags. -/
def basicTestStruct : EncRecord :=
  [ { tags := ["identifier", "test"], val := .intv 42 },
    { tags := ["attribute", "first"], val := .intv 84 },
    { tags := ["attribute", "second"], val := .strv "a string" },
    { tags := ["relationship", "one", "data", "other"], val := .intv 4242 },
    { tags := ["relationship", "many", "data", "other"], val := .listv [21, 42] } ]

/-- The resource the test harness builds by hand as the expected encoding
of `basicTestStruct`. -/
def basicExpectedResource : Resource :=
  { ID := "42", RType := "test",
    Attributes := [("first", .intv 84), ("second", .strv "a string")],
    Relationships :=
      [("one", { NewRelationship with
                 Data := some { LType := ResourceLinkageToOne,
                                LData := [some { ID := "4242", RType := "other",
                                                 RMeta := NewMeta }] } }),
       ("many", { NewRelationship with
                  Data := some { LType := ResourceLinkageToMany,
                                 LData := [some { ID := "21", RType := "other",
                                                  RMeta := NewMeta },
                                           some { ID := "42", RType := "other",
                                                  RMeta := NewMeta }] } })],
    Links := NewLinks, RMeta := NewMeta }

/-- The root the test harness builds by hand. -/
def basicExpectedRoot : Root :=
  { Data := some { RsType := ResourcesOne, RsData := [some basicExpectedResource] },
    RMeta := NewMeta }

/-- A freshly constructed decode target of the scenario struct's shape
(every slot at its zero value). -/
def basicTargetRecord : List TargetField :=
  [ { tags := ["identifier", "test"], slot := .intS 0 },
    { tags := ["attribute", "first"], slot := .intS 0 },
    { tags := ["attribute", "second"], slot := .strS "" },
    { tags := ["relationship", "one", "data", "other"], slot := .intS 0 },
    { tags := ["relationship", "many", "data", "other"], slot := .intListS [] } ]

/-- A one-field record whose only field is tagged `meta,note`. -/
def metaTaggedRecord : EncRecord :=
  [ { tags := ["meta", "note"], val := .strv "x" } ]

/-- The identifier initially stored in the template linkage of the C4
fixture. -/
def c4rid0 : ResourceIdentifier := { ID := "a", RType := "t", RMeta := NewMeta }

/-- A different identifier written through one populated copy. -/
def c4rid1 : ResourceIdentifier := { ID := "b", RType := "t", RMeta := NewMeta }

/-- A heap holding the template's single linkage cell at address 0. -/
def c4heap : CtxHeap.Heap :=
  [{ LType := ResourceLinkageToOne, LData := [some c4rid0] }]

/-- The stored relationship template: its data pointer addresses cell 0. -/
def c4tpl : CtxHeap.RelationshipH :=
  { LinksRef := 0, DataRef := some 0, MetaRef := 1 }

/-- A context registering the template under the name `rel`. -/
def c4ctx : List (String × CtxHeap.RelationshipH) := [("rel", c4tpl)]

/-- A resource whose id is `"42"` and type `"test"` and nothing else. -/
def c8resource : Resource := { NewResource with ID := "42", RType := "test" }

/-- A root whose ONE container holds `c8resource`. -/
def c8rootOne : Root :=
  { Data := some (NewResourcesOne.SetResource (some c8resource)).1,
    RMeta := NewMeta }

/-- A root whose MANY container holds zero resources. -/
def c8rootMany : Root := { Data := some NewResourcesMany, RMeta := NewMeta }

/-- A resource of declared type `"tests"` with id `"5"`. -/
def c10resource : Resource := { NewResource with ID := "5", RType := "tests" }

/-- A one-field target whose identifier tag expects type `"test"`. -/
def c10record : List TargetField :=
  [ { tags := ["identifier", "test"], slot := .intS 0 } ]

/-- A one-field target whose identifier tag expects type `"tes"`. -/
def c10badRecord : List TargetField :=
  [ { tags := ["identifier", "tes"], slot := .intS 0 } ]

/-- A resource whose to-one relationship data identifier has declared type
`"others"`. -/
def c10relResource : Resource :=
  { NewResource with
    ID := "9"
    RType := "test"
    Relationships :=
      [("one", { NewRelationship with
                 Data := some { LType := ResourceLinkageToOne,
                                LData := [some { ID := "4242", RType := "others",
                                                 RMeta := NewMeta }] } })] }

/-- `c10relResource` after the decoder's plural check truncated the
identifier's declared type in place. -/
def c10relResourceAfter : Resource :=
  { NewResource with
    ID := "9"
    RType := "test"
    Relationships :=
      [("one", { NewRelationship with
                 Data := some { LType := ResourceLinkageToOne,
                                LData := [some { ID := "4242", RType := "other",
                                                 RMeta := NewMeta }] } })] }

/-- A one-field target decoding the `one` relationship into an int. -/
def c10relRecord : List TargetField :=
  [ { tags := ["relationship", "one", "data", "other"], slot := .intS 0 } ]

/-! ## Helper lemmas -/

/-- `encodeIdentifier` never touches the resource's meta. -/
theorem encodeIdentifier_RMeta (res : Resource) (v : GoVal)
    (tags : List String) (res' : Resource)
    (h : encodeIdentifier res v tags = .ok res') :
    res'.RMeta = res.RMeta := by
  unfold encodeIdentifier at h
  split at h
  · injection h
  · split at h
    · injection h with h
      subst h
      rfl
    · injection h

/-- `encodeAttribute` never touches the resource's meta. -/
theorem encodeAttribute_RMeta (res : Resource) (v : GoVal)
    (tags : List String) (res' : Resource)
    (h : encodeAttribute res v tags = .ok res') :
    res'.RMeta = res.RMeta := by
  unfold encodeAttribute at h
  split at h
  · injection h
  · split at h
    · injection h with h
      subst h
      rfl
    · injection h

/-- `encodeRelationship` never touches the resource's meta. -/
theorem encodeRelationship_RMeta (c : Context) (res : Resource) (v : GoVal)
    (tags : List String) (res' : Resource)
    (h : encodeRelationship c res v tags = .ok res') :
    res'.RMeta = res.RMeta := by
  simp only [encodeRelationship] at h
  repeat' split at h
  all_goals first
  | (injection h with h2
     subst h2
     rfl)
  | injection h

/-- `marshalStruct` never writes the resource's meta: no dispatch arm
exists for meta-tagged (or link-tagged) fields, and the three arms that do
run preserve it. -/
theorem marshalStruct_RMeta :
    ∀ (rec : EncRecord) (c : Context) (res res' : Resource),
      marshalStruct c res rec = .ok res' → res'.RMeta = res.RMeta
  | [], _c, _res, _res', h => by
    unfold marshalStruct at h
    injection h with h
    subst h
    rfl
  | f :: fs, c, res, res', h => by
    simp only [marshalStruct] at h
    split at h
    · injection h
    case _ res2 heq =>
      have h2 : res2.RMeta = res.RMeta := by
        split at heq
        · exact encodeIdentifier_RMeta res f.val f.tags res2 heq
        · split at heq
          · exact encodeAttribute_RMeta res f.val f.tags res2 heq
          · split at heq
            · exact encodeRelationship_RMeta c res f.val f.tags res2 heq
            · injection heq with heq
              subst heq
              rfl
      rw [marshalStruct_RMeta fs c res2 res' h, h2]

/-! ## The claims -/

/-- C1: the claim states that decoding the root produced by encoding the
scenario record into a fresh target of the same shape reproduces the
record.  The code fails on both directions: encoding the scenario record
aborts with `ErrEncodingInvalidType` (the to-many `[]int` data
relationship reaches `valueToString`, which has no slice case), the
decode-direction `setAttribute` rejects a stored Go `int` attribute value
(only string/float64/bool/nil kinds are handled), and decoding even the
hand-built expected root of the repository's own test harness into a
fresh scenario-shaped target errors at the first attribute — contradicting
the repository's own `TestEncode`/`TestDecode`. -/
theorem C1_scenario_roundtrip_fails :
    Marshal (.structv basicTestStruct) = .error .encodingInvalidType ∧
    setAttribute (.intS 0) (.intv 84) = .error .decodingInvalidType ∧
    Unmarshal basicExpectedRoot (.ptr basicTargetRecord)
      = (basicExpectedRoot, .err .decodingInvalidType) :=
  ⟨rfl, rfl, rfl⟩

/-- C2: the claim states that decoding a MANY root into a resizable
sequence clears and repopulates it, one fresh record per resource in
order.  In the code the slice value comes from `reflect.ValueOf` on the
interface argument and is unaddressable, so the path's first statement
`v.SetLen(0)` panics before any resource is read (and even absent the
panic, the loop discards `reflect.Append`'s result): for every MANY root
and every slice target, `Unmarshal` panics and never returns a populated
target. -/
theorem C2_many_decode_panics (rs : Resources) (m : Meta)
    (recs : List (List TargetField)) (h : rs.RsType = ResourcesMany) :
    Context.Unmarshal NewContext { Data := some rs, RMeta := m } (.slicet recs)
      = ({ Data := some rs, RMeta := m }, .panicked setLenPanicMsg) := by
  unfold Context.Unmarshal
  simp [h, ResourcesMany, ResourcesOne]

/-- Witness for C2: a MANY root holding one resource, decoded into a
one-element slice target, panics at `SetLen`. -/
theorem C2_many_decode_panics_witness :
    Context.Unmarshal NewContext
        { Data := some { RsType := ResourcesMany, RsData := [some NewResource] },
          RMeta := NewMeta }
        (.slicet [basicTargetRecord])
      = ({ Data := some { RsType := ResourcesMany, RsData := [some NewResource] },
           RMeta := NewMeta },
         .panicked setLenPanicMsg) :=
  C2_many_decode_panics
    { RsType := ResourcesMany, RsData := [some NewResource] }
    NewMeta [basicTargetRecord] rfl

/-- Counterexample to C3: encoding a record whose only field is tagged
`meta,note` yields a resource that is exactly `NewResource` — its meta
mapping is empty and holds nothing under `note`, although the claim says
the field's value is stored there. -/
theorem C3_meta_not_encoded :
    Marshal (.structv metaTaggedRecord)
      = .ok { Data := some { RsType := ResourcesOne,
                             RsData := [some NewResource] },
              RMeta := NewMeta } ∧
    alistGet NewResource.RMeta "note" = none :=
  ⟨rfl, rfl⟩

/-- C3 as amended: the encoder's dispatch covers only the identifier,
attribute and relationship categories; a field tagged `meta, <name>` (or
`link, <name>`) is skipped, so the encoded resource's Meta mapping is
always empty — the field's value is never stored there. -/
theorem C3_meta_ignored (c : Context) (rec : EncRecord) (res : Resource)
    (h : marshalStruct c NewResource rec = .ok res) :
    res.RMeta = NewMeta :=
  marshalStruct_RMeta rec c NewResource res h

/-- Witness for C3: encoding the meta-tagged record concretely yields an
empty meta. -/
theorem C3_meta_ignored_witness : NewResource.RMeta = NewMeta :=
  C3_meta_ignored NewContext metaTaggedRecord NewResource rfl

/-- Counterexample to C4: populating the registered template twice with
the two different values 1 and 2 yields two copies that are bit-for-bit
the template itself — both alias the template's linkage cell at address 0,
so they are not independent: a write through the first copy's linkage is
observed when reading through the second copy (and no slot of either copy
ever received the injected value). -/
theorem C4_copies_not_independent :
    CtxHeap.encodeRelationshipContextH c4ctx c4heap "rel" (.intv 1)
      = .ok (c4tpl, c4heap) ∧
    CtxHeap.encodeRelationshipContextH c4ctx c4heap "rel" (.intv 2)
      = .ok (c4tpl, c4heap) ∧
    ¬ CtxHeap.IndependentCopies c4tpl c4tpl ∧
    CtxHeap.readThroughData c4heap c4tpl = some (some c4rid0) ∧
    CtxHeap.readThroughData (CtxHeap.setThroughData c4heap c4tpl (some c4rid1))
        c4tpl
      = some (some c4rid1) ∧
    c4rid1 ≠ c4rid0 :=
  ⟨rfl, rfl, fun hind => (hind 0 0 rfl rfl) rfl, rfl, rfl, by decide⟩

/-- C4 as amended: populating a registered relationship template returns a
SHALLOW copy equal to the stored template — sharing its links, data and
meta references — and leaves the heap (hence the stored template's
contents) unchanged; no `value`-tagged slot exists in a `Relationship`, so
the injected value is stored nowhere, and copies from successive calls
alias the same linkage rather than being independent. -/
theorem C4_shallow_copy (c : List (String × CtxHeap.RelationshipH))
    (h : CtxHeap.Heap) (name : String) (v : GoVal)
    (tpl : CtxHeap.RelationshipH) (hl : alistGet c name = some tpl) :
    CtxHeap.encodeRelationshipContextH c h name v = .ok (tpl, h) := by
  unfold CtxHeap.encodeRelationshipContextH
  rw [hl]
  cases htpl : tpl.DataRef <;> simp [CtxHeap.populateStructH, htpl]

/-- Witness for C4: the concrete fixture population returns the template
as the copy and the heap unchanged. -/
theorem C4_shallow_copy_witness :
    CtxHeap.encodeRelationshipContextH c4ctx c4heap "rel" (.intv 7)
      = .ok (c4tpl, c4heap) :=
  C4_shallow_copy c4ctx c4heap "rel" (.intv 7) c4tpl rfl

/-- C5: the permissive identifier match strips exactly one trailing
character, never recursively: a declared type `"tests"` matches an
expected `"test"` (and the stored type becomes `"test"`), while `"tests"`
against an expected `"tes"` fails with the identifier-type-mismatch error
— in both `decodeIdentifier` and `decodeResourceIdentifier`. -/
theorem C5_plural_matching :
    (decodeIdentifier { NewResource with ID := "7", RType := "tests" }
        ["identifier", "test"] (.strS "")
      = ({ NewResource with ID := "7", RType := "test" }, .ok (.strS "7"))) ∧
    (decodeIdentifier { NewResource with ID := "7", RType := "tests" }
        ["identifier", "tes"] (.strS "")
      = ({ NewResource with ID := "7", RType := "test" },
         .err .decodingInvalidIDType)) ∧
    (decodeResourceIdentifier { ID := "7", RType := "tests", RMeta := NewMeta }
        ["relationship", "r", "data", "test"] (.strS "")
      = ({ ID := "7", RType := "test", RMeta := NewMeta }, .ok (.strS "7"))) ∧
    (decodeResourceIdentifier { ID := "7", RType := "tests", RMeta := NewMeta }
        ["relationship", "r", "data", "tes"] (.strS "")
      = ({ ID := "7", RType := "test", RMeta := NewMeta },
         .err .decodingInvalidIDType)) :=
  ⟨rfl, rfl, rfl, rfl⟩

/-- Counterexample to C6: the claim says a boolean field becomes true iff
the raw number is NOT zero, but at n = 1 (which is not zero) the code sets
the field to false — `numberToValue` executes `v.SetBool(nbr == 0.0)`. -/
theorem C6_number_to_bool_counterexample :
    numberToValue 1 (.boolS true) = .ok (.boolS false) ∧ (1 : ℚ) ≠ 0 :=
  ⟨rfl, by norm_num⟩

/-- C6 as amended: for every raw number n and boolean target field, the
decode table sets the field to the result of testing EQUALITY to zero —
the field becomes true iff n = 0. -/
theorem C6_number_to_bool (q : ℚ) (b : Bool) :
    numberToValue q (.boolS b) = .ok (.boolS (decide (q = 0))) :=
  rfl

/-- C7: `set` on a MANY resources container and on a TO_MANY linkage
always fails with the cardinality-mismatch error leaving the contents
unchanged; `add` on a ONE container and on a TO_ONE linkage likewise; and
the freshly constructed ONE/TO_ONE containers hold exactly one slot,
present but nil-valued. -/
theorem C7_cardinality_invariants :
    (∀ (ds : List (Option Resource)) (r : Option Resource),
        Resources.SetResource { RsType := ResourcesMany, RsData := ds } r
          = ({ RsType := ResourcesMany, RsData := ds },
             .error .resourcesBadType)) ∧
    (∀ (ds : List (Option Resource)) (r : Option Resource),
        Resources.AddResource { RsType := ResourcesOne, RsData := ds } r
          = ({ RsType := ResourcesOne, RsData := ds },
             .error .resourcesBadType)) ∧
    (∀ (ds : List (Option ResourceIdentifier)) (r : Option ResourceIdentifier),
        ResourceLinkage.SetResourceIdentifier
            { LType := ResourceLinkageToMany, LData := ds } r
          = ({ LType := ResourceLinkageToMany, LData := ds },
             .error .resourceLinkageBadType)) ∧
    (∀ (ds : List (Option ResourceIdentifier)) (r : Option ResourceIdentifier),
        ResourceLinkage.AddResourceIdentifier
            { LType := ResourceLinkageToOne, LData := ds } r
          = ({ LType := ResourceLinkageToOne, LData := ds },
             .error .resourceLinkageBadType)) ∧
    NewResourcesOne.RsData = [none] ∧
    NewResourceLinkageToOne.LData = [none] :=
  ⟨fun _ _ => rfl, fun _ _ => rfl, fun _ _ => rfl, fun _ _ => rfl, rfl, rfl⟩

/-- C8: serializing a ONE container holding the resource (id "42", type
"test") puts a single object — not a one-element array — under `data`,
and serializing a MANY container with zero resources emits `data: []`,
the member present with an empty array. -/
theorem C8_serialization_shape :
    rootToJson c8rootOne
      = some (.obj [("data", .obj [("id", .str "42"), ("type", .str "test")])]) ∧
    rootToJson c8rootMany = some (.obj [("data", .arr [])]) :=
  ⟨rfl, rfl⟩

/-- Counterexample to C9: inserting a channel value (which fails the value
validator) under the reserved key `"links"` yields the unsupported-type
error, not the reserved-key error the claim promises regardless of value
validity — the validator runs first. -/
theorem C9_reserved_key_counterexample :
    Attributes.AddAttribute NewAttributes "links" .chanv
      = .error .invalidJSONValue ∧
    GoErr.invalidJSONValue ≠ GoErr.attributeInvalidKey :=
  ⟨rfl, by decide⟩

/-- C9 as amended: the validator check precedes the reserved-key check —
a value passing the validator inserted under `"relationships"` or
`"links"` fails with the reserved-key error, and a value of an unsupported
kind fails with the unsupported-type error under every key (including the
reserved ones). -/
theorem C9_validator_precedence :
    (∀ (a : Attributes) (key : String) (v : GoVal),
        isValidJSONValue v = .ok () →
        (key = "relationships" ∨ key = "links") →
        Attributes.AddAttribute a key v = .error .attributeInvalidKey) ∧
    (∀ (a : Attributes) (key : String) (v : GoVal),
        isValidJSONValue v = .error .invalidJSONValue →
        Attributes.AddAttribute a key v = .error .invalidJSONValue) := by
  constructor
  · intro a key v hv hkey
    unfold Attributes.AddAttribute
    rw [hv]
    rcases hkey with h | h <;> subst h <;> simp
  · intro a key v hv
    unfold Attributes.AddAttribute
    rw [hv]

/-- Witness for C9: a valid string value under `"links"` hits the
reserved-key error. -/
theorem C9_validator_precedence_witness :
    Attributes.AddAttribute NewAttributes "links" (.strv "x")
      = .error .attributeInvalidKey :=
  C9_validator_precedence.1 NewAttributes "links" (.strv "x") rfl (Or.inr rfl)

/-- C10: whenever the permissive plural check fires (the stored declared
type differs from the tag's expected type and ends in `"s"`),
`decodeIdentifier` truncates the stored type by exactly its trailing
character; and at the `Unmarshal` level the truncation is written through
into the root and remains observable to the caller afterwards — on
success, on identifier-type-mismatch failure, and equally for a
relationship-data `ResourceIdentifier`. -/
theorem C10_unmarshal_mutates_root :
    (∀ (res : Resource) (tags : List String) (s : Slot),
        tags.getD 1 "" ≠ res.RType → res.RType.takeRight 1 = "s" →
        ¬ res.RType.isEmpty →
        ((decodeIdentifier res tags s).1).RType = res.RType.dropRight 1) ∧
    (Unmarshal { Data := some { RsType := ResourcesOne,
                                RsData := [some c10resource] },
                 RMeta := NewMeta } (.ptr c10record)
      = ({ Data := some { RsType := ResourcesOne,
                          RsData := [some { c10resource with RType := "test" }] },
           RMeta := NewMeta },
         .ok (.ptr [{ tags := ["identifier", "test"], slot := .intS 5 }]))) ∧
    (Unmarshal { Data := some { RsType := ResourcesOne,
                                RsData := [some c10resource] },
                 RMeta := NewMeta } (.ptr c10badRecord)
      = ({ Data := some { RsType := ResourcesOne,
                          RsData := [some { c10resource with RType := "test" }] },
           RMeta := NewMeta },
         .err .decodingInvalidIDType)) ∧
    (Unmarshal { Data := some { RsType := ResourcesOne,
                                RsData := [some c10relResource] },
                 RMeta := NewMeta } (.ptr c10relRecord)
      = ({ Data := some { RsType := ResourcesOne,
                          RsData := [some c10relResourceAfter] },
           RMeta := NewMeta },
         .ok (.ptr [{ tags := ["relationship", "one", "data", "other"],
                      slot := .intS 4242 }]))) := by
  refine ⟨?_, by decide, by decide, by decide⟩
  intro res tags s hne hs hemp
  simp only [decodeIdentifier]
  rw [if_neg hne, if_neg hemp, if_pos hs]
  split <;> rfl

/-- Witness for C10: the general truncation clause at the concrete
resource of type `"tests"` against an expected `"test"`. -/
theorem C10_unmarshal_mutates_root_witness :
    ((decodeIdentifier { NewResource with ID := "5", RType := "tests" }
        ["identifier", "test"] (.intS 0)).1).RType = "tests".dropRight 1 :=
  C10_unmarshal_mutates_root.1
    { NewResource with ID := "5", RType := "tests" }
    ["identifier", "test"] (.intS 0) (by decide) rfl (by decide)

end TJsonApi
